import Mathlib

/-!
Verification of the noirtty-web server-side terminal session engine
(src/server/src/main.rs) against its specification.

The Rust code is shallowly embedded: machine integers are modelled as
Nat/Int with explicit wrapping where a cast can truncate, fallible
operations return Option, and the stateful parts (session registry,
broadcast send loop, last-frame slot) are modelled as explicit state
passing or small step functions over a state type.
-/

namespace NoirTTY

/-- RGB triple, modelling Rust [u8; 3] (components < 256 for real values). -/
structure Rgb where
  r : Nat
  g : Nat
  b : Nat
deriving DecidableEq, Repr

/-- The ServerCell struct (main.rs lines 57-66).  The char field is modelled
as its unicode scalar value. -/
structure ServerCell where
  c : Nat
  fg : Rgb
  bg : Rgb
  bold : Bool
  italic : Bool
  underline : Bool
  inverse : Bool
deriving DecidableEq, Repr

/-- DEFAULT_FG (main.rs line 823). -/
def DEFAULT_FG : Rgb := ⟨229, 229, 229⟩

/-- DEFAULT_BG (main.rs line 824). -/
def DEFAULT_BG : Rgb := ⟨30, 30, 30⟩

/-- ServerCell::default (main.rs lines 68-80): space, default fg/bg, flags clear. -/
def ServerCell.default : ServerCell :=
  { c := 32, fg := DEFAULT_FG, bg := DEFAULT_BG,
    bold := false, italic := false, underline := false, inverse := false }

/-- The ServerFrame struct (main.rs lines 82-90); u16 fields modelled as Nat. -/
structure ServerFrame where
  cols : Nat
  rows : Nat
  cursor_col : Nat
  cursor_row : Nat
  cursor_visible : Bool
  cells : List ServerCell
deriving DecidableEq, Repr

/-- The ServerMessage enum (main.rs lines 92-97): currently only Frame. -/
inductive ServerMessage where
  | frame (f : ServerFrame)
deriving DecidableEq, Repr

/-- The ANSI_16 palette (main.rs lines 826-843), as a lookup function.
The source only ever indexes it with 0..=15; larger inputs are unreachable
(in Rust they would panic) and here return the last entry. -/
def ANSI_16 (i : Nat) : Rgb :=
  match i with
  | 0 => ⟨0, 0, 0⟩
  | 1 => ⟨205, 49, 49⟩
  | 2 => ⟨13, 188, 121⟩
  | 3 => ⟨229, 229, 16⟩
  | 4 => ⟨36, 114, 200⟩
  | 5 => ⟨188, 63, 188⟩
  | 6 => ⟨17, 168, 205⟩
  | 7 => ⟨229, 229, 229⟩
  | 8 => ⟨102, 102, 102⟩
  | 9 => ⟨241, 76, 76⟩
  | 10 => ⟨35, 209, 139⟩
  | 11 => ⟨245, 245, 67⟩
  | 12 => ⟨59, 142, 234⟩
  | 13 => ⟨214, 112, 214⟩
  | 14 => ⟨41, 184, 219⟩
  | _ => ⟨255, 255, 255⟩

/-- dim_color (main.rs lines 963-970): each channel is (c * 2) / 3 computed
in u16 and cast back to u8; since c ≤ 255 the result is ≤ 170, so the final
cast never truncates and plain Nat arithmetic is exact. -/
def dim_color (color : Rgb) : Rgb :=
  ⟨color.r * 2 / 3, color.g * 2 / 3, color.b * 2 / 3⟩

/-- color_256 (main.rs lines 972-1002).  The input is a u8; inputs ≥ 256 are
unrepresentable and fall into a dead default branch. -/
def color_256 (idx : Nat) : Rgb :=
  match idx with
  | 0 => ⟨0, 0, 0⟩
  | 1 => ⟨205, 49, 49⟩
  | 2 => ⟨13, 188, 121⟩
  | 3 => ⟨229, 229, 16⟩
  | 4 => ⟨36, 114, 200⟩
  | 5 => ⟨188, 63, 188⟩
  | 6 => ⟨17, 168, 205⟩
  | 7 => ⟨229, 229, 229⟩
  | 8 => ⟨102, 102, 102⟩
  | 9 => ⟨241, 76, 76⟩
  | 10 => ⟨35, 209, 139⟩
  | 11 => ⟨245, 245, 67⟩
  | 12 => ⟨59, 142, 234⟩
  | 13 => ⟨214, 112, 214⟩
  | 14 => ⟨41, 184, 219⟩
  | 15 => ⟨255, 255, 255⟩
  | _ =>
    if idx ≤ 231 then
      let i := idx - 16
      ⟨(i / 36) * 51, ((i / 6) % 6) * 51, (i % 6) * 51⟩
    else if idx ≤ 255 then
      let gray := (idx - 232) * 10 + 8
      ⟨gray, gray, gray⟩
    else
      ⟨0, 0, 0⟩

/-- alacritty's NamedColor variants, as matched by resolve_named_color
(main.rs lines 929-961). -/
inductive NamedColor where
  | Foreground
  | Background
  | Cursor
  | BrightForeground
  | DimForeground
  | Black
  | Red
  | Green
  | Yellow
  | Blue
  | Magenta
  | Cyan
  | White
  | BrightBlack
  | BrightRed
  | BrightGreen
  | BrightYellow
  | BrightBlue
  | BrightMagenta
  | BrightCyan
  | BrightWhite
  | DimBlack
  | DimRed
  | DimGreen
  | DimYellow
  | DimBlue
  | DimMagenta
  | DimCyan
  | DimWhite
deriving DecidableEq, Repr

/-- alacritty's Color enum as consumed by resolve_color (main.rs 915-927). -/
inductive Color where
  | spec (rgb : Rgb)
  | indexed (idx : Nat)
  | named (n : NamedColor)
deriving DecidableEq, Repr

/-- The emulator-supplied colour override map (alacritty term::color::Colors):
a partial map from named slots to RGB. -/
def Colors : Type := NamedColor → Option Rgb

/-- resolve_named_color (main.rs lines 929-961). -/
def resolve_named_color (named : NamedColor) : Rgb :=
  match named with
  | .Foreground => DEFAULT_FG
  | .Background => DEFAULT_BG
  | .Cursor => DEFAULT_FG
  | .BrightForeground => ANSI_16 15
  | .DimForeground => dim_color DEFAULT_FG
  | .Black => ANSI_16 0
  | .Red => ANSI_16 1
  | .Green => ANSI_16 2
  | .Yellow => ANSI_16 3
  | .Blue => ANSI_16 4
  | .Magenta => ANSI_16 5
  | .Cyan => ANSI_16 6
  | .White => ANSI_16 7
  | .BrightBlack => ANSI_16 8
  | .BrightRed => ANSI_16 9
  | .BrightGreen => ANSI_16 10
  | .BrightYellow => ANSI_16 11
  | .BrightBlue => ANSI_16 12
  | .BrightMagenta => ANSI_16 13
  | .BrightCyan => ANSI_16 14
  | .BrightWhite => ANSI_16 15
  | .DimBlack => dim_color (ANSI_16 0)
  | .DimRed => dim_color (ANSI_16 1)
  | .DimGreen => dim_color (ANSI_16 2)
  | .DimYellow => dim_color (ANSI_16 3)
  | .DimBlue => dim_color (ANSI_16 4)
  | .DimMagenta => dim_color (ANSI_16 5)
  | .DimCyan => dim_color (ANSI_16 6)
  | .DimWhite => dim_color (ANSI_16 7)

/-- resolve_color (main.rs lines 915-927): explicit RGB passes through,
indices go through color_256, named slots consult the override map first. -/
def resolve_color (color : Color) (colors : Colors) : Rgb :=
  match color with
  | .spec rgb => rgb
  | .indexed idx => color_256 idx
  | .named n =>
    match colors n with
    | some rgb => rgb
    | none => resolve_named_color n

/-- The alacritty cell flags tested by convert_cell (main.rs 890-913):
INVERSE, WIDE_CHAR_SPACER, BOLD, ITALIC, and the five underline variants
making up ALL_UNDERLINES. -/
structure CellFlags where
  bold : Bool
  italic : Bool
  inverse : Bool
  wide_char_spacer : Bool
  underline : Bool
  double_underline : Bool
  undercurl : Bool
  dotted_underline : Bool
  dashed_underline : Bool
deriving DecidableEq, Repr

/-- flags.intersects(TermFlags::ALL_UNDERLINES): any underline variant set. -/
def CellFlags.all_underlines (f : CellFlags) : Bool :=
  f.underline || f.double_underline || f.undercurl ||
    f.dotted_underline || f.dashed_underline

/-- An alacritty grid cell as read by convert_cell: char (scalar value),
fg/bg colour descriptors, flags. -/
structure TermCell where
  c : Nat
  fg : Color
  bg : Color
  flags : CellFlags
deriving DecidableEq, Repr

/-- convert_cell (main.rs lines 890-913): resolve both colours, swap them
when INVERSE is set, replace a wide-char spacer by a space, copy the
attribute flags. -/
def convert_cell (cell : TermCell) (colors : Colors) : ServerCell :=
  let fg := resolve_color cell.fg colors
  let bg := resolve_color cell.bg colors
  let fg2 := if cell.flags.inverse then bg else fg
  let bg2 := if cell.flags.inverse then fg else bg
  let c := if cell.flags.wide_char_spacer then 32 else cell.c
  { c := c, fg := fg2, bg := bg2,
    bold := cell.flags.bold,
    italic := cell.flags.italic,
    underline := cell.flags.all_underlines,
    inverse := cell.flags.inverse }

/-- One entry of content.display_iter: an alacritty Indexed cell with its
Line (an i32) and Column (a usize). -/
structure IndexedCell where
  line : Int
  column : Nat
  cell : TermCell
deriving Repr

/-- Snapshot of the alacritty Term state consumed by build_frame:
grid dimensions (usize), display offset (usize), the renderable cells,
the cursor point and whether the cursor shape is Hidden, and the colour
override map. -/
structure TermState where
  cols : Nat
  rows : Nat
  display_offset : Nat
  display_iter : List IndexedCell
  cursor_line : Int
  cursor_column : Nat
  cursor_hidden : Bool
  colors : Colors

/-- Rust cast of a usize to i32 (content.display_offset as i32):
truncate to 32 bits and reinterpret as signed. -/
def toI32 (n : Nat) : Int :=
  if n % 4294967296 < 2147483648 then (n % 4294967296 : Int)
  else (n % 4294967296 : Int) - 4294967296

/-- Wrapping i32 addition result (release-mode Rust i32 overflow wraps):
normalize an integer into [-2^31, 2^31). -/
def wrapI32 (x : Int) : Int :=
  (x + 2147483648) % 4294967296 - 2147483648

/-- The body of the display_iter loop in build_frame (main.rs 853-864):
skip cells whose on-screen row or column falls outside the visible region,
otherwise store the converted cell at row * cols + col. -/
def place_cell (cols rows : Nat) (colors : Colors) (offset : Int)
    (acc : List ServerCell) (ic : IndexedCell) : List ServerCell :=
  let row := wrapI32 (ic.line + offset)
  if row < 0 ∨ row ≥ (rows : Int) then acc
  else if ic.column ≥ cols then acc
  else acc.set (row.toNat * cols + ic.column) (convert_cell ic.cell colors)

/-- build_frame (main.rs lines 845-888).  cols/rows are term.columns() and
term.screen_lines() cast to u16 (hence the % 65536); the cells vector
starts as cols*rows default cells; the cursor is visible iff its shape is
not Hidden and its offset row lands inside [0, rows). -/
def build_frame (st : TermState) : ServerFrame :=
  let cols := st.cols % 65536
  let rows := st.rows % 65536
  let offset := toI32 st.display_offset
  let cells := st.display_iter.foldl (place_cell cols rows st.colors offset)
    (List.replicate (cols * rows) ServerCell.default)
  let cinit : Bool := !st.cursor_hidden
  let cursor : Nat × Nat × Bool :=
    if cinit then
      let row := wrapI32 (st.cursor_line + offset)
      if row < 0 ∨ row ≥ (rows : Int) then (0, 0, false)
      else (st.cursor_column % 65536, row.toNat, true)
    else (0, 0, false)
  { cols := cols, rows := rows,
    cursor_col := cursor.1, cursor_row := cursor.2.1,
    cursor_visible := cursor.2.2, cells := cells }

/-! ### Wire encodings (C5)

The server serializes ServerMessage with serde_json (text transports) or
bincode 1.x with its default configuration (binary transports); the client
(src/client/src/transport.rs, terminal.rs) deserializes the same shape with
identical field names and order.  The JSON layer is modelled at the level of
the serde data model (a JSON value tree); the bincode layer at the level of
the byte sequence bincode produces: little-endian fixed-width integers,
a u32 enum variant index, a u64 length prefix for Vec, one byte per bool,
and UTF-8 bytes for char. -/

/-- A JSON value, as in serde_json: strings carry unicode scalar values. -/
inductive Json where
  | jnull
  | jbool (b : Bool)
  | jnum (n : Int)
  | jstr (cs : List Nat)
  | jarr (xs : List Json)
  | jobj (fields : List (String × Json))

/-- The scalar values of the tag string "frame". -/
def frameTag : List Nat := [102, 114, 97, 109, 101]

/-- serde_json serialization of one ServerCell (derive Serialize on
main.rs 57-66): fields in declaration order, char as a one-char string,
[u8; 3] as a 3-element array. -/
def encode_cell_json (cell : ServerCell) : Json :=
  .jobj [("c", .jstr [cell.c]),
         ("fg", .jarr [.jnum cell.fg.r, .jnum cell.fg.g, .jnum cell.fg.b]),
         ("bg", .jarr [.jnum cell.bg.r, .jnum cell.bg.g, .jnum cell.bg.b]),
         ("bold", .jbool cell.bold),
         ("italic", .jbool cell.italic),
         ("underline", .jbool cell.underline),
         ("inverse", .jbool cell.inverse)]

/-- The key-value pairs serde_json emits for a frame: the "type" tag first,
then the ServerFrame fields in declaration order. -/
def frame_fields_json (f : ServerFrame) : List (String × Json) :=
  [("type", .jstr frameTag),
   ("cols", .jnum f.cols),
   ("rows", .jnum f.rows),
   ("cursor_col", .jnum f.cursor_col),
   ("cursor_row", .jnum f.cursor_row),
   ("cursor_visible", .jbool f.cursor_visible),
   ("cells", .jarr (f.cells.map encode_cell_json))]

/-- serde_json serialization of ServerMessage (internally tagged with
"type", main.rs 92-97): the frame fields flattened beside the tag. -/
def encode_server_message_json (msg : ServerMessage) : Json :=
  match msg with
  | .frame f => .jobj (frame_fields_json f)

/-- Field lookup by name in a JSON object (serde matches struct fields by
name, in any order; the encoder above emits each key once). -/
def jlookup (k : String) : List (String × Json) → Option Json
  | [] => none
  | (k', v) :: rest => if k = k' then some v else jlookup k rest

/-- serde deserialization of a u16 field from a JSON number. -/
def decode_u16_json : Json → Option Nat
  | .jnum n => if 0 ≤ n ∧ n < 65536 then some n.toNat else none
  | _ => none

/-- serde deserialization of a u8 from a JSON number. -/
def decode_u8_json : Json → Option Nat
  | .jnum n => if 0 ≤ n ∧ n < 256 then some n.toNat else none
  | _ => none

/-- serde deserialization of a bool. -/
def decode_bool_json : Json → Option Bool
  | .jbool b => some b
  | _ => none

/-- A valid unicode scalar value (what a Rust char can hold). -/
def is_scalar (c : Nat) : Prop := c < 1114112 ∧ (c < 55296 ∨ 57344 ≤ c)

instance (c : Nat) : Decidable (is_scalar c) := by
  unfold is_scalar
  infer_instance

/-- serde deserialization of a char: a string containing exactly one
unicode scalar value. -/
def decode_char_json : Json → Option Nat
  | .jstr cs =>
    match cs with
    | [c] => if c < 1114112 ∧ (c < 55296 ∨ 57344 ≤ c) then some c else none
    | _ => none
  | _ => none

/-- serde deserialization of [u8; 3]: an array of exactly three bytes. -/
def decode_rgb_json : Json → Option Rgb
  | .jarr xs =>
    match xs with
    | [a, b, c] => do
      let r ← decode_u8_json a
      let g ← decode_u8_json b
      let bl ← decode_u8_json c
      some ⟨r, g, bl⟩
    | _ => none
  | _ => none

/-- Deserialization of one cell (client Cell, terminal.rs 10-19: same
fields, same order as the server's ServerCell). -/
def decode_cell_json : Json → Option ServerCell
  | .jobj fields => do
    let c ← decode_char_json (← jlookup "c" fields)
    let fg ← decode_rgb_json (← jlookup "fg" fields)
    let bg ← decode_rgb_json (← jlookup "bg" fields)
    let bold ← decode_bool_json (← jlookup "bold" fields)
    let italic ← decode_bool_json (← jlookup "italic" fields)
    let und ← decode_bool_json (← jlookup "underline" fields)
    let inv ← decode_bool_json (← jlookup "inverse" fields)
    some ⟨c, fg, bg, bold, italic, und, inv⟩
  | _ => none

/-- Deserialization of the cells vector element by element (serde's Vec
visitor: any element failing fails the whole parse). -/
def decode_cells_json : List Json → Option (List ServerCell)
  | [] => some []
  | j :: rest => do
    let c ← decode_cell_json j
    let cs ← decode_cells_json rest
    some (c :: cs)

/-- Deserialization of the tagged ServerMessage (client transport.rs 26-31
with TerminalFrame, terminal.rs 35-43). -/
def decode_server_message_json (j : Json) : Option ServerMessage :=
  match j with
  | .jobj fields =>
    match jlookup "type" fields with
    | some (.jstr tag) =>
      if tag = frameTag then do
        let cols ← decode_u16_json (← jlookup "cols" fields)
        let rows ← decode_u16_json (← jlookup "rows" fields)
        let ccol ← decode_u16_json (← jlookup "cursor_col" fields)
        let crow ← decode_u16_json (← jlookup "cursor_row" fields)
        let cvis ← decode_bool_json (← jlookup "cursor_visible" fields)
        let cellsJson ← jlookup "cells" fields
        let cells ← match cellsJson with
          | .jarr xs => decode_cells_json xs
          | _ => none
        some (.frame ⟨cols, rows, ccol, crow, cvis, cells⟩)
      else none
    | _ => none
  | _ => none

/-- bincode: u16 as two little-endian bytes. -/
def encode_u16_le (n : Nat) : List Nat := [n % 256, n / 256 % 256]

/-- bincode: u32 as four little-endian bytes (used for enum variant tags). -/
def encode_u32_le (n : Nat) : List Nat :=
  [n % 256, n / 256 % 256, n / 65536 % 256, n / 16777216 % 256]

/-- bincode: u64 as eight little-endian bytes (used for Vec lengths). -/
def encode_u64_le (n : Nat) : List Nat :=
  [n % 256, n / 256 % 256, n / 65536 % 256, n / 16777216 % 256,
   n / 4294967296 % 256, n / 1099511627776 % 256,
   n / 281474976710656 % 256, n / 72057594037927936 % 256]

/-- bincode: bool as one byte, 0 or 1. -/
def encode_bool_bin (b : Bool) : List Nat := [if b then 1 else 0]

/-- bincode: char as its UTF-8 byte sequence. -/
def encode_utf8 (c : Nat) : List Nat :=
  if c < 128 then [c]
  else if c < 2048 then [192 + c / 64, 128 + c % 64]
  else if c < 65536 then [224 + c / 4096, 128 + c / 64 % 64, 128 + c % 64]
  else [240 + c / 262144, 128 + c / 4096 % 64, 128 + c / 64 % 64, 128 + c % 64]

/-- bincode serialization of one ServerCell: fields in declaration order;
[u8; 3] is three raw bytes (arrays carry no length prefix). -/
def encode_cell_bin (cell : ServerCell) : List Nat :=
  encode_utf8 cell.c ++
  [cell.fg.r % 256, cell.fg.g % 256, cell.fg.b % 256] ++
  [cell.bg.r % 256, cell.bg.g % 256, cell.bg.b % 256] ++
  encode_bool_bin cell.bold ++ encode_bool_bin cell.italic ++
  encode_bool_bin cell.underline ++ encode_bool_bin cell.inverse

/-- bincode serialization of ServerMessage: the Frame variant index (0) as
u32, then the frame fields in order, the cells vector with a u64 length. -/
def encode_server_message_bin (msg : ServerMessage) : List Nat :=
  match msg with
  | .frame f =>
    encode_u32_le 0 ++
    encode_u16_le f.cols ++ encode_u16_le f.rows ++
    encode_u16_le f.cursor_col ++ encode_u16_le f.cursor_row ++
    encode_bool_bin f.cursor_visible ++
    encode_u64_le f.cells.length ++
    (f.cells.map encode_cell_bin).flatten

/-- bincode decoding of a u8: one byte. -/
def dec_u8 : List Nat → Option (Nat × List Nat)
  | b :: rest => some (b, rest)
  | [] => none

/-- bincode decoding of a little-endian u16. -/
def dec_u16 : List Nat → Option (Nat × List Nat)
  | b0 :: b1 :: rest => some (b0 + 256 * b1, rest)
  | _ => none

/-- bincode decoding of a little-endian u32. -/
def dec_u32 : List Nat → Option (Nat × List Nat)
  | b0 :: b1 :: b2 :: b3 :: rest =>
    some (b0 + 256 * b1 + 65536 * b2 + 16777216 * b3, rest)
  | _ => none

/-- bincode decoding of a little-endian u64. -/
def dec_u64 : List Nat → Option (Nat × List Nat)
  | b0 :: b1 :: b2 :: b3 :: b4 :: b5 :: b6 :: b7 :: rest =>
    some (b0 + 256 * b1 + 65536 * b2 + 16777216 * b3 + 4294967296 * b4 +
      1099511627776 * b5 + 281474976710656 * b6 + 72057594037927936 * b7, rest)
  | _ => none

/-- bincode decoding of a bool: exactly 0 or 1 (anything else is an
InvalidBoolEncoding error). -/
def dec_bool : List Nat → Option (Bool × List Nat)
  | 0 :: rest => some (false, rest)
  | 1 :: rest => some (true, rest)
  | _ => none

/-- bincode decoding of a char: one UTF-8 scalar, rejecting truncated
sequences, bad continuation bytes, overlong forms, surrogates and values
beyond U+10FFFF. -/
def dec_char : List Nat → Option (Nat × List Nat)
  | [] => none
  | b0 :: rest =>
    if b0 < 128 then some (b0, rest)
    else if b0 < 192 then none
    else if b0 < 224 then
      match rest with
      | b1 :: rest2 =>
        if 128 ≤ b1 ∧ b1 < 192 then
          let c := (b0 - 192) * 64 + (b1 - 128)
          if 128 ≤ c then some (c, rest2) else none
        else none
      | _ => none
    else if b0 < 240 then
      match rest with
      | b1 :: b2 :: rest2 =>
        if (128 ≤ b1 ∧ b1 < 192) ∧ (128 ≤ b2 ∧ b2 < 192) then
          let c := (b0 - 224) * 4096 + (b1 - 128) * 64 + (b2 - 128)
          if 2048 ≤ c ∧ (c < 55296 ∨ 57344 ≤ c) then some (c, rest2) else none
        else none
      | _ => none
    else if b0 < 248 then
      match rest with
      | b1 :: b2 :: b3 :: rest2 =>
        if (128 ≤ b1 ∧ b1 < 192) ∧ (128 ≤ b2 ∧ b2 < 192) ∧ (128 ≤ b3 ∧ b3 < 192) then
          let c := (b0 - 240) * 262144 + (b1 - 128) * 4096 + (b2 - 128) * 64 + (b3 - 128)
          if 65536 ≤ c ∧ c < 1114112 then some (c, rest2) else none
        else none
      | _ => none
    else none

/-- bincode decoding of one cell, mirroring encode_cell_bin field order. -/
def dec_cell (bs : List Nat) : Option (ServerCell × List Nat) := do
  let (c, bs) ← dec_char bs
  let (fr, bs) ← dec_u8 bs
  let (fgc, bs) ← dec_u8 bs
  let (fb, bs) ← dec_u8 bs
  let (br, bs) ← dec_u8 bs
  let (bgc, bs) ← dec_u8 bs
  let (bb, bs) ← dec_u8 bs
  let (bold, bs) ← dec_bool bs
  let (italic, bs) ← dec_bool bs
  let (und, bs) ← dec_bool bs
  let (inv, bs) ← dec_bool bs
  some (⟨c, ⟨fr, fgc, fb⟩, ⟨br, bgc, bb⟩, bold, italic, und, inv⟩, bs)

/-- bincode decoding of a counted sequence of values. -/
def dec_list {α : Type} (dec : List Nat → Option (α × List Nat)) :
    Nat → List Nat → Option (List α × List Nat)
  | 0, bs => some ([], bs)
  | n + 1, bs => do
    let (x, bs1) ← dec bs
    let (xs, bs2) ← dec_list dec n bs1
    some (x :: xs, bs2)

/-- bincode decoding of ServerMessage, mirroring encode_server_message_bin. -/
def decode_server_message_bin (bs : List Nat) : Option (ServerMessage × List Nat) := do
  let (tag, bs) ← dec_u32 bs
  if tag = 0 then do
    let (cols, bs) ← dec_u16 bs
    let (rows, bs) ← dec_u16 bs
    let (ccol, bs) ← dec_u16 bs
    let (crow, bs) ← dec_u16 bs
    let (cvis, bs) ← dec_bool bs
    let (len, bs) ← dec_u64 bs
    let (cells, bs) ← dec_list dec_cell len bs
    some (.frame ⟨cols, rows, ccol, crow, cvis, cells⟩, bs)
  else none

/-- Well-formedness of a cell value as represented in Rust: the char is a
unicode scalar and every colour channel fits in a u8. -/
def WfCell (cell : ServerCell) : Prop :=
  is_scalar cell.c ∧
  cell.fg.r < 256 ∧ cell.fg.g < 256 ∧ cell.fg.b < 256 ∧
  cell.bg.r < 256 ∧ cell.bg.g < 256 ∧ cell.bg.b < 256

/-- Well-formedness of a frame value as represented in Rust: the four
u16 fields fit in 16 bits, the cell count fits in a u64 (it is a usize),
and every cell is well formed. -/
def WfFrame (f : ServerFrame) : Prop :=
  f.cols < 65536 ∧ f.rows < 65536 ∧ f.cursor_col < 65536 ∧ f.cursor_row < 65536 ∧
  f.cells.length < 18446744073709551616 ∧ ∀ cell ∈ f.cells, WfCell cell

/-! ### Transport attach and send loop (C3, C9) -/

/-- A message on the websocket: a text (JSON) or binary (bincode) frame. -/
inductive WireMessage where
  | text (j : Json)
  | binary (bytes : List Nat)

/-- Encoding in the transport's chosen format (handle_socket serializes with
bincode when use_binary, serde_json otherwise; main.rs 439-447, 464-474). -/
def encode_wire (use_binary : Bool) (msg : ServerMessage) : WireMessage :=
  if use_binary then .binary (encode_server_message_bin msg)
  else .text (encode_server_message_json msg)

/-- One result of frame_rx.recv().await in the send task: a frame together
with the min_interval_ms loaded at that iteration and the instant (in ms)
at which it is handled, or a lag report.  The list ending models the
channel closing or the socket erroring out. -/
inductive RecvRes where
  | ok (min_now : Nat) (now : Nat) (msg : ServerMessage)
  | lagged (n : Nat)

/-- The send task loop (main.rs 449-480): lag reports are skipped; when the
loaded throttle is positive and not enough time has elapsed since the last
transmit the frame is dropped (last_sent unchanged), otherwise the frame is
sent, and last_sent is updated only on the throttled path, exactly as in
the source. -/
def send_task_loop (use_binary : Bool) : Nat → List RecvRes → List WireMessage
  | _, [] => []
  | last_sent, .lagged _ :: rest => send_task_loop use_binary last_sent rest
  | last_sent, .ok min_now now msg :: rest =>
    if min_now > 0 then
      if now - last_sent < min_now then send_task_loop use_binary last_sent rest
      else encode_wire use_binary msg :: send_task_loop use_binary now rest
    else encode_wire use_binary msg :: send_task_loop use_binary last_sent rest

/-- The initial send in handle_socket (main.rs 433-447): after subscribing,
the current last_frame, if present, is encoded and sent before the send
task starts. -/
def attach_initial (use_binary : Bool) (last : Option ServerMessage) : List WireMessage :=
  match last with
  | some msg => [encode_wire use_binary msg]
  | none => []

/-- The full ordered output of one transport's server-to-client direction:
the initial cached frame (if any), then the send-task loop output. -/
def handle_socket_sends (use_binary : Bool) (last : Option ServerMessage)
    (last_sent : Nat) (events : List RecvRes) : List WireMessage :=
  attach_initial use_binary last ++ send_task_loop use_binary last_sent events

/-! ### Session creation, throttle defaults, and the last-frame slot
(C4, C8, C9, C10) -/

/-- The per-session shared state initialized on the create path of
get_or_create_session (main.rs 401-404): Mutex::new(None) for last_frame
and AtomicU64::new(0) for min_interval_ms. -/
structure SessionShared where
  min_interval_ms : Nat
  last_frame : Option ServerMessage

/-- The freshly created session shared state. -/
def new_session : SessionShared :=
  { min_interval_ms := 0, last_frame := none }

/-- The emulator-loop throttle (run_pty emulator thread, main.rs 622-633):
the number of milliseconds slept before emitting, as a function of the
loaded min_interval_ms and the elapsed time since the last emission. -/
def emu_throttle_sleep (min_ms elapsed : Nat) : Nat :=
  if min_ms > 0 then (if elapsed < min_ms then min_ms - elapsed else 0) else 0

/-- The publish step of the emulator thread (main.rs 635-641): the
last-frame slot is overwritten with the new frame message. -/
def publish_frame (_slot : Option ServerMessage) (msg : ServerMessage) :
    Option ServerMessage :=
  some msg

/-- The last-frame slot after a sequence of published frames. -/
def run_publishes (init : Option ServerMessage) (msgs : List ServerMessage) :
    Option ServerMessage :=
  msgs.foldl publish_frame init

/-- serde's deserialization of a u32 field from a JSON integer (derive
Deserialize on ClientMessage, main.rs 44-55): values outside [0, 2^32)
are an error, which makes the whole ClientMessage parse fail. -/
def parse_u32_json (n : Int) : Option Nat :=
  if 0 ≤ n ∧ n < 4294967296 then some n.toNat else none

/-- Handling of an incoming quality text message by the recv task
(main.rs 485-515): a successfully parsed Quality stores its value in the
shared min_interval_ms; a message that fails to parse is logged and
discarded, leaving the stored value unchanged, and the loop continues. -/
def recv_quality_step (current : Nat) (k : Int) : Nat :=
  match parse_u32_json k with
  | some v => v
  | none => current

/-- The stored throttle after a sequence of quality messages with the
given min_interval_ms integer payloads; total, so the transport never
fails however malformed the values are. -/
def recv_quality_fold (current : Nat) (ks : List Int) : Nat :=
  ks.foldl recv_quality_step current

/-! ### The get_or_create_session race (C4)

Two callers (A and B) race on the same session id.  Each caller runs
get_or_create_session (main.rs 395-424), which is two separately atomic
DashMap operations with no lock held in between: the get on line 396 and
the create-then-insert path on lines 401-421.  A step of a caller is one
of these atomic sections; a schedule is a list of caller choices.
Sessions are identified by a creation counter; spawned counts the run_pty
threads (each of which spawns one shell/PTY). -/

structure RaceState where
  registry : Option Nat
  spawned : Nat
  resA : Option Nat
  resB : Option Nat
  pcA : Nat
  pcB : Nat
deriving DecidableEq, Repr

/-- Both callers at their first step, empty registry, no shell spawned. -/
def race_init : RaceState :=
  { registry := none, spawned := 0, resA := none, resB := none, pcA := 0, pcB := 0 }

/-- One atomic step of one caller (false = A, true = B).
pc 0 is the DashMap get: a hit returns the existing session, a miss falls
through to the create path.  pc 1 is the create path: spawn run_pty (one
shell) and insert the new session, overwriting any existing entry.
pc 2 is done. -/
def race_step (s : RaceState) (b : Bool) : RaceState :=
  if b then
    match s.pcB with
    | 0 =>
      match s.registry with
      | some sid => { s with resB := some sid, pcB := 2 }
      | none => { s with pcB := 1 }
    | 1 =>
      let sid := s.spawned + 1
      { s with spawned := sid, registry := some sid, resB := some sid, pcB := 2 }
    | _ => s
  else
    match s.pcA with
    | 0 =>
      match s.registry with
      | some sid => { s with resA := some sid, pcA := 2 }
      | none => { s with pcA := 1 }
    | 1 =>
      let sid := s.spawned + 1
      { s with spawned := sid, registry := some sid, resA := some sid, pcA := 2 }
    | _ => s

/-- Execution of a schedule of interleaved caller steps. -/
def race_exec (sched : List Bool) : RaceState :=
  sched.foldl race_step race_init

/-- The interleaving in which both callers pass the lookup before either
inserts: A gets, B gets, A creates, B creates. -/
def race_bad_schedule : List Bool := [false, true, false, true]

/-! ### Concrete inputs used by witnesses -/

/-- No colour overrides (a fresh alacritty Colors map is all unset). -/
def no_overrides : Colors := fun _ => none

/-- All cell flags clear. -/
def clear_flags : CellFlags :=
  { bold := false, italic := false, inverse := false, wide_char_spacer := false,
    underline := false, double_underline := false, undercurl := false,
    dotted_underline := false, dashed_underline := false }

/-- The cell alacritty holds at (0,0) after processing ESC [ 7 m X in a
fresh session: the glyph X with default (named) colours and INVERSE set. -/
def inverse_x_cell : TermCell :=
  { c := 88, fg := .named .Foreground, bg := .named .Background,
    flags := { clear_flags with inverse := true } }

/-- A small concrete emulator snapshot: 2x2 grid, no scrollback offset,
one renderable cell, visible cursor at (1, 1). -/
def demo_state : TermState :=
  { cols := 2, rows := 2, display_offset := 0,
    display_iter := [⟨0, 0, inverse_x_cell⟩],
    cursor_line := 1, cursor_column := 1, cursor_hidden := false,
    colors := no_overrides }

/-- A small concrete well-formed frame. -/
def demo_frame : ServerFrame :=
  { cols := 1, rows := 1, cursor_col := 0, cursor_row := 0,
    cursor_visible := true,
    cells := [{ c := 88, fg := ⟨30, 30, 30⟩, bg := ⟨229, 229, 229⟩,
                bold := false, italic := false, underline := false,
                inverse := true }] }

/-! ## Theorems -/

theorem place_cell_length (cols rows : Nat) (colors : Colors) (offset : Int)
    (acc : List ServerCell) (ic : IndexedCell) :
    (place_cell cols rows colors offset acc ic).length = acc.length := by
  simp only [place_cell]
  split
  · rfl
  · split
    · rfl
    · simp [List.length_set]

theorem foldl_place_cell_length (cols rows : Nat) (colors : Colors) (offset : Int)
    (l : List IndexedCell) (acc : List ServerCell) :
    (l.foldl (place_cell cols rows colors offset) acc).length = acc.length := by
  induction l generalizing acc with
  | nil => rfl
  | cons ic rest ih => rw [List.foldl_cons, ih, place_cell_length]

/-- C1: every frame produced by build_frame, regardless of the emulator
state it snapshots, has a cells array of length exactly cols * rows. -/
theorem build_frame_cells_length (st : TermState) :
    (build_frame st).cells.length = (build_frame st).cols * (build_frame st).rows := by
  simp only [build_frame]
  rw [foldl_place_cell_length, List.length_replicate]

/-- C2: for every frame produced by build_frame from an emulator snapshot
satisfying alacritty's own invariants (the cursor column lies inside the
grid and the column count fits in u16), if cursor_visible is true then
cursor_col < cols and cursor_row < rows. -/
theorem build_frame_cursor_in_bounds (st : TermState)
    (hcol : st.cursor_column < st.cols) (hcols : st.cols < 65536) :
    (build_frame st).cursor_visible = true →
    (build_frame st).cursor_col < (build_frame st).cols ∧
    (build_frame st).cursor_row < (build_frame st).rows := by
  simp only [build_frame]
  split
  · split
    · intro hfalse
      exact absurd hfalse (by simp)
    · intro _
      dsimp only
      rename_i hrow
      constructor <;> omega
  · intro hfalse
    exact absurd hfalse (by simp)

/-- C2 witness: a concrete 2x2 snapshot with a visible cursor at (1, 1). -/
theorem build_frame_cursor_in_bounds_witness :
    (build_frame demo_state).cursor_col < (build_frame demo_state).cols ∧
    (build_frame demo_state).cursor_row < (build_frame demo_state).rows :=
  build_frame_cursor_in_bounds demo_state (by decide) (by decide) (by decide)

/-- C3: for every transport attaching to a session, if the last_frame slot
holds a frame at subscription time, the first message sent to that
transport is exactly that frame encoded in the transport's chosen format,
before any live frame. -/
theorem attach_sends_last_frame_first (use_binary : Bool)
    (last : Option ServerMessage) (msg : ServerMessage)
    (last_sent : Nat) (events : List RecvRes)
    (h : last = some msg) :
    (handle_socket_sends use_binary last last_sent events).head? =
      some (encode_wire use_binary msg) := by
  subst h
  rfl

/-- C3 witness: a binary-format attach finding a cached frame. -/
theorem attach_sends_last_frame_first_witness :
    (handle_socket_sends true (some (.frame demo_frame)) 0 []).head? =
      some (encode_wire true (.frame demo_frame)) :=
  attach_sends_last_frame_first true (some (.frame demo_frame))
    (.frame demo_frame) 0 [] rfl

/-- C4: evaluating the interleaving model of get_or_create_session at the
schedule where both racing callers run the DashMap lookup before either
inserts: two shells/PTYs are spawned and the two callers end up holding
two different Sessions, refuting per-id serialization of the create path. -/
theorem race_two_shells :
    (race_exec race_bad_schedule).spawned = 2 ∧
    (race_exec race_bad_schedule).resA = some 1 ∧
    (race_exec race_bad_schedule).resB = some 2 ∧
    (race_exec race_bad_schedule).resA ≠ (race_exec race_bad_schedule).resB := by
  decide

set_option maxRecDepth 4000 in
/-- C6: color_256 agrees with the specified palette on all 256 indices:
0-15 are the ANSI 16, 16-231 the 6x6x6 cube with coefficient 51, 232-255
the greys (i-232)*10+8. -/
theorem color_256_spec :
    ∀ i : Fin 256,
      (i.val ≤ 15 → color_256 i.val = ANSI_16 i.val) ∧
      (16 ≤ i.val → i.val ≤ 231 →
        color_256 i.val = ⟨((i.val - 16) / 36) * 51, (((i.val - 16) / 6) % 6) * 51,
          ((i.val - 16) % 6) * 51⟩) ∧
      (232 ≤ i.val →
        color_256 i.val = ⟨(i.val - 232) * 10 + 8, (i.val - 232) * 10 + 8,
          (i.val - 232) * 10 + 8⟩) := by
  decide

/-- C6 witness: the cube colour at index 203 and the grey at 240. -/
theorem color_256_spec_witness :
    color_256 203 = ⟨((203 - 16) / 36) * 51, (((203 - 16) / 6) % 6) * 51,
      ((203 - 16) % 6) * 51⟩ ∧
    color_256 240 = ⟨(240 - 232) * 10 + 8, (240 - 232) * 10 + 8,
      (240 - 232) * 10 + 8⟩ :=
  ⟨(color_256_spec ⟨203, by decide⟩).2.1 (by decide) (by decide),
   (color_256_spec ⟨240, by decide⟩).2.2 (by decide)⟩

/-- C7: convert_cell swaps the resolved foreground and background and
records inverse = true whenever the cell's INVERSE flag is set; in
particular the cell alacritty holds after ESC [ 7 m X in a fresh session
converts to fg {30,30,30}, bg {229,229,229}, inverse true, c 'X'. -/
theorem convert_cell_inverse_spec :
    (∀ (cell : TermCell) (colors : Colors), cell.flags.inverse = true →
      (convert_cell cell colors).fg = resolve_color cell.bg colors ∧
      (convert_cell cell colors).bg = resolve_color cell.fg colors ∧
      (convert_cell cell colors).inverse = true) ∧
    convert_cell inverse_x_cell no_overrides =
      { c := 88, fg := ⟨30, 30, 30⟩, bg := ⟨229, 229, 229⟩,
        bold := false, italic := false, underline := false, inverse := true } := by
  constructor
  · intro cell colors hinv
    simp [convert_cell, hinv]
  · rfl

/-- C7 witness: the swap equalities at the concrete ESC [ 7 m X cell. -/
theorem convert_cell_inverse_spec_witness :
    (convert_cell inverse_x_cell no_overrides).fg =
      resolve_color inverse_x_cell.bg no_overrides ∧
    (convert_cell inverse_x_cell no_overrides).bg =
      resolve_color inverse_x_cell.fg no_overrides ∧
    (convert_cell inverse_x_cell no_overrides).inverse = true :=
  convert_cell_inverse_spec.1 inverse_x_cell no_overrides rfl

/-- C8 counterexample: a quality message carrying min_interval_ms = -1
arriving while the stored throttle is 5 leaves the throttle at 5; it is
not clamped to 0 as the claim states. -/
theorem quality_negative_not_clamped :
    recv_quality_step 5 (-1) = 5 ∧ recv_quality_step 5 (-1) ≠ 0 := by
  decide

/-- C8 amended: handling a quality message is total (the session never
fails): an in-range value is stored verbatim, while a negative or
overflowing value fails the ClientMessage parse, so the message is
discarded and the stored throttle is left unchanged. -/
theorem quality_parse_total (current : Nat) (k : Int) :
    (0 ≤ k → k < 4294967296 → recv_quality_step current k = k.toNat) ∧
    ((k < 0 ∨ 4294967296 ≤ k) → recv_quality_step current k = current) := by
  constructor
  · intro h1 h2
    simp only [recv_quality_step, parse_u32_json, if_pos (And.intro h1 h2)]
  · intro h
    have hne : ¬(0 ≤ k ∧ k < 4294967296) := by omega
    simp only [recv_quality_step, parse_u32_json, if_neg hne]

/-- C8 amended witness: an in-range quality value is stored verbatim and
an overflowing one is discarded. -/
theorem quality_parse_total_witness :
    recv_quality_step 5 7 = (7 : Int).toNat ∧
    recv_quality_step 5 4294967296 = 5 :=
  ⟨(quality_parse_total 5 7).1 (by decide) (by decide),
   (quality_parse_total 5 4294967296).2 (Or.inr (by decide))⟩

/-- C9: a freshly created session stores min_interval_ms = 0; with a loaded
throttle of 0 the emulator loop sleeps 0 ms before emitting, and a send
task that loads 0 at every iteration forwards every received frame and
drops none, so no frame is delayed or dropped by throttling until a
Quality message stores a positive value. -/
theorem fresh_session_no_throttle :
    new_session.min_interval_ms = 0 ∧
    (∀ elapsed, emu_throttle_sleep new_session.min_interval_ms elapsed = 0) ∧
    ∀ (use_binary : Bool) (last_sent : Nat) (events : List RecvRes),
      (∀ mn now msg, RecvRes.ok mn now msg ∈ events → mn = 0) →
      send_task_loop use_binary last_sent events =
        events.filterMap (fun e =>
          match e with
          | .ok _ _ msg => some (encode_wire use_binary msg)
          | .lagged _ => none) := by
  refine ⟨rfl, fun _ => rfl, ?_⟩
  intro ub last_sent events
  induction events generalizing last_sent with
  | nil => intro _; rfl
  | cons e rest ih =>
    intro h
    cases e with
    | lagged n =>
      simp only [send_task_loop, List.filterMap_cons]
      exact ih last_sent fun mn now msg hm => h mn now msg (List.mem_cons_of_mem _ hm)
    | ok mn now msg =>
      have hmn : mn = 0 := h mn now msg (List.mem_cons_self _ _)
      subst hmn
      simp only [send_task_loop, List.filterMap_cons, gt_iff_lt, Nat.lt_irrefl,
        if_false]
      rw [ih last_sent fun mn' now' msg' hm => h mn' now' msg' (List.mem_cons_of_mem _ hm)]

/-- C9 witness: with throttle 0 a single received frame is forwarded. -/
theorem fresh_session_no_throttle_witness :
    send_task_loop false 0 [RecvRes.ok 0 5 (.frame demo_frame)] =
      [RecvRes.ok 0 5 (.frame demo_frame)].filterMap (fun e =>
        match e with
        | .ok _ _ msg => some (encode_wire false msg)
        | .lagged _ => none) :=
  fresh_session_no_throttle.2.2 false 0 [RecvRes.ok 0 5 (.frame demo_frame)]
    (by
      intro mn now msg hm
      simp only [List.mem_singleton, RecvRes.ok.injEq] at hm
      exact hm.1)

theorem run_publishes_isSome (init : Option ServerMessage)
    (msgs : List ServerMessage) (h : init.isSome = true) :
    (run_publishes init msgs).isSome = true := by
  induction msgs generalizing init with
  | nil => exact h
  | cons m rest ih => exact ih (some m) rfl

/-- C10: the last-frame slot starts empty; publishing always overwrites it
with the just-built frame; once any frame has been published the slot is
non-empty and stays non-empty under further publishes; and an attach that
finds it non-empty sends an initial frame. -/
theorem last_frame_monotone :
    new_session.last_frame = none ∧
    (∀ slot msg, publish_frame slot msg = some msg) ∧
    (∀ init msgs, msgs ≠ [] → (run_publishes init msgs).isSome = true) ∧
    (∀ init msgs, init.isSome = true → (run_publishes init msgs).isSome = true) ∧
    (∀ (use_binary : Bool) (slot : Option ServerMessage), slot.isSome = true →
      attach_initial use_binary slot ≠ []) := by
  refine ⟨rfl, fun _ _ => rfl, ?_, run_publishes_isSome, ?_⟩
  · intro init msgs hne
    cases msgs with
    | nil => exact absurd rfl hne
    | cons m rest => exact run_publishes_isSome (some m) rest rfl
  · intro ub slot hs
    cases slot with
    | none => exact absurd hs (by simp)
    | some m => simp [attach_initial]

/-- C10 witness: one publish into an empty slot makes it non-empty, and an
attach finding a non-empty slot sends an initial message. -/
theorem last_frame_monotone_witness :
    (run_publishes none [ServerMessage.frame demo_frame]).isSome = true ∧
    attach_initial false (some (.frame demo_frame)) ≠ [] :=
  ⟨last_frame_monotone.2.2.1 none [.frame demo_frame] (by simp),
   last_frame_monotone.2.2.2.2 false (some (.frame demo_frame)) rfl⟩

/-! ### C5: encode/decode round-trips -/

theorem decode_u16_json_encode (n : Nat) (h : n < 65536) :
    decode_u16_json (.jnum n) = some n := by
  simp only [decode_u16_json]
  rw [if_pos (by omega)]
  simp

theorem decode_u8_json_encode (n : Nat) (h : n < 256) :
    decode_u8_json (.jnum n) = some n := by
  simp only [decode_u8_json]
  rw [if_pos (by omega)]
  simp

theorem decode_char_json_encode (c : Nat) (h : is_scalar c) :
    decode_char_json (.jstr [c]) = some c := by
  unfold is_scalar at h
  simp only [decode_char_json]
  rw [if_pos h]

theorem decode_rgb_json_encode (x : Rgb) (h1 : x.r < 256) (h2 : x.g < 256)
    (h3 : x.b < 256) :
    decode_rgb_json (.jarr [.jnum x.r, .jnum x.g, .jnum x.b]) = some x := by
  simp [decode_rgb_json, decode_u8_json_encode _ h1, decode_u8_json_encode _ h2,
    decode_u8_json_encode _ h3]

theorem decode_cell_json_encode (cell : ServerCell) (h : WfCell cell) :
    decode_cell_json (encode_cell_json cell) = some cell := by
  obtain ⟨hc, h1, h2, h3, h4, h5, h6⟩ := h
  simp [decode_cell_json, encode_cell_json, jlookup,
    decode_char_json_encode _ hc,
    decode_rgb_json_encode cell.fg h1 h2 h3,
    decode_rgb_json_encode cell.bg h4 h5 h6,
    decode_bool_json]

theorem decode_cells_json_encode (cells : List ServerCell)
    (h : ∀ cell ∈ cells, WfCell cell) :
    decode_cells_json (cells.map encode_cell_json) = some cells := by
  induction cells with
  | nil => rfl
  | cons c rest ih =>
    simp only [List.map_cons, decode_cells_json]
    rw [decode_cell_json_encode c (h c (List.mem_cons_self _ _)),
      ih fun x hx => h x (List.mem_cons_of_mem _ hx)]
    rfl

theorem jlookup_field_type (f : ServerFrame) :
    jlookup "type" (frame_fields_json f) = some (.jstr frameTag) := rfl

theorem jlookup_field_cols (f : ServerFrame) :
    jlookup "cols" (frame_fields_json f) = some (.jnum f.cols) := rfl

theorem jlookup_field_rows (f : ServerFrame) :
    jlookup "rows" (frame_fields_json f) = some (.jnum f.rows) := rfl

theorem jlookup_field_cursor_col (f : ServerFrame) :
    jlookup "cursor_col" (frame_fields_json f) = some (.jnum f.cursor_col) := rfl

theorem jlookup_field_cursor_row (f : ServerFrame) :
    jlookup "cursor_row" (frame_fields_json f) = some (.jnum f.cursor_row) := rfl

theorem jlookup_field_cursor_visible (f : ServerFrame) :
    jlookup "cursor_visible" (frame_fields_json f) =
      some (.jbool f.cursor_visible) := rfl

theorem jlookup_field_cells (f : ServerFrame) :
    jlookup "cells" (frame_fields_json f) =
      some (.jarr (f.cells.map encode_cell_json)) := rfl

theorem decode_json_roundtrip (f : ServerFrame) (h : WfFrame f) :
    decode_server_message_json (encode_server_message_json (.frame f)) =
      some (.frame f) := by
  obtain ⟨hcols, hrows, hcc, hcr, hlen, hcells⟩ := h
  simp only [encode_server_message_json, decode_server_message_json, jlookup_field_type]
  rw [if_pos trivial]
  simp only [Option.bind_eq_bind]
  rw [jlookup_field_cols, Option.some_bind]
  rw [decode_u16_json_encode _ hcols, Option.some_bind]
  rw [jlookup_field_rows, Option.some_bind]
  rw [decode_u16_json_encode _ hrows, Option.some_bind]
  rw [jlookup_field_cursor_col, Option.some_bind]
  rw [decode_u16_json_encode _ hcc, Option.some_bind]
  rw [jlookup_field_cursor_row, Option.some_bind]
  rw [decode_u16_json_encode _ hcr, Option.some_bind]
  rw [jlookup_field_cursor_visible, Option.some_bind]
  rw [show decode_bool_json (.jbool f.cursor_visible) = some f.cursor_visible from rfl,
    Option.some_bind]
  rw [jlookup_field_cells, Option.some_bind]
  dsimp only
  rw [decode_cells_json_encode f.cells hcells, Option.some_bind]

theorem dec_u16_encode (n : Nat) (r : List Nat) (h : n < 65536) :
    dec_u16 (encode_u16_le n ++ r) = some (n, r) := by
  simp only [encode_u16_le, List.cons_append, List.nil_append, dec_u16,
    Option.some.injEq, Prod.mk.injEq]
  exact ⟨by omega, trivial⟩

theorem dec_u32_encode (n : Nat) (r : List Nat) (h : n < 4294967296) :
    dec_u32 (encode_u32_le n ++ r) = some (n, r) := by
  simp only [encode_u32_le, List.cons_append, List.nil_append, dec_u32,
    Option.some.injEq, Prod.mk.injEq]
  exact ⟨by omega, trivial⟩

theorem dec_u64_encode (n : Nat) (r : List Nat) (h : n < 18446744073709551616) :
    dec_u64 (encode_u64_le n ++ r) = some (n, r) := by
  simp only [encode_u64_le, List.cons_append, List.nil_append, dec_u64,
    Option.some.injEq, Prod.mk.injEq]
  exact ⟨by omega, trivial⟩

theorem dec_bool_encode (b : Bool) (r : List Nat) :
    dec_bool (encode_bool_bin b ++ r) = some (b, r) := by
  cases b <;> rfl

theorem dec_char_encode (c : Nat) (r : List Nat) (h : is_scalar c) :
    dec_char (encode_utf8 c ++ r) = some (c, r) := by
  obtain ⟨hlt, hsur⟩ := h
  by_cases h1 : c < 128
  · simp only [encode_utf8, if_pos h1, List.cons_append, List.nil_append, dec_char,
      if_pos h1]
  · by_cases h2 : c < 2048
    · simp only [encode_utf8, if_neg h1, if_pos h2, List.cons_append,
        List.nil_append, dec_char]
      rw [if_neg (show ¬192 + c / 64 < 128 by omega),
        if_neg (show ¬192 + c / 64 < 192 by omega),
        if_pos (show 192 + c / 64 < 224 by omega)]
      rw [if_pos (show 128 ≤ 128 + c % 64 ∧ 128 + c % 64 < 192 by omega),
        if_pos (show 128 ≤ (192 + c / 64 - 192) * 64 + (128 + c % 64 - 128) by omega)]
      simp only [Option.some.injEq, Prod.mk.injEq]
      exact ⟨by omega, trivial⟩
    · by_cases h3 : c < 65536
      · simp only [encode_utf8, if_neg h1, if_neg h2, if_pos h3, List.cons_append,
          List.nil_append, dec_char]
        rw [if_neg (show ¬224 + c / 4096 < 128 by omega),
          if_neg (show ¬224 + c / 4096 < 192 by omega),
          if_neg (show ¬224 + c / 4096 < 224 by omega),
          if_pos (show 224 + c / 4096 < 240 by omega)]
        rw [if_pos (show (128 ≤ 128 + c / 64 % 64 ∧ 128 + c / 64 % 64 < 192) ∧
            (128 ≤ 128 + c % 64 ∧ 128 + c % 64 < 192) by omega)]
        rw [if_pos (show 2048 ≤ (224 + c / 4096 - 224) * 4096 +
            (128 + c / 64 % 64 - 128) * 64 + (128 + c % 64 - 128) ∧
            ((224 + c / 4096 - 224) * 4096 + (128 + c / 64 % 64 - 128) * 64 +
              (128 + c % 64 - 128) < 55296 ∨
             57344 ≤ (224 + c / 4096 - 224) * 4096 + (128 + c / 64 % 64 - 128) * 64 +
              (128 + c % 64 - 128)) by omega)]
        simp only [Option.some.injEq, Prod.mk.injEq]
        exact ⟨by omega, trivial⟩
      · simp only [encode_utf8, if_neg h1, if_neg h2, if_neg h3, List.cons_append,
          List.nil_append, dec_char]
        rw [if_neg (show ¬240 + c / 262144 < 128 by omega),
          if_neg (show ¬240 + c / 262144 < 192 by omega),
          if_neg (show ¬240 + c / 262144 < 224 by omega),
          if_neg (show ¬240 + c / 262144 < 240 by omega),
          if_pos (show 240 + c / 262144 < 248 by omega)]
        rw [if_pos (show (128 ≤ 128 + c / 4096 % 64 ∧ 128 + c / 4096 % 64 < 192) ∧
            (128 ≤ 128 + c / 64 % 64 ∧ 128 + c / 64 % 64 < 192) ∧
            (128 ≤ 128 + c % 64 ∧ 128 + c % 64 < 192) by omega)]
        rw [if_pos (show 65536 ≤ (240 + c / 262144 - 240) * 262144 +
            (128 + c / 4096 % 64 - 128) * 4096 + (128 + c / 64 % 64 - 128) * 64 +
            (128 + c % 64 - 128) ∧
            (240 + c / 262144 - 240) * 262144 + (128 + c / 4096 % 64 - 128) * 4096 +
            (128 + c / 64 % 64 - 128) * 64 + (128 + c % 64 - 128) < 1114112 by omega)]
        simp only [Option.some.injEq, Prod.mk.injEq]
        exact ⟨by omega, trivial⟩

theorem dec_cell_encode (cell : ServerCell) (r : List Nat) (h : WfCell cell) :
    dec_cell (encode_cell_bin cell ++ r) = some (cell, r) := by
  obtain ⟨hc, h1, h2, h3, h4, h5, h6⟩ := h
  simp only [encode_cell_bin, List.append_assoc, List.cons_append, List.nil_append]
  simp only [dec_cell, Option.bind_eq_bind]
  rw [dec_char_encode _ _ hc]
  simp only [Option.some_bind, dec_u8, dec_bool_encode,
    Nat.mod_eq_of_lt h1, Nat.mod_eq_of_lt h2, Nat.mod_eq_of_lt h3,
    Nat.mod_eq_of_lt h4, Nat.mod_eq_of_lt h5, Nat.mod_eq_of_lt h6]

theorem dec_list_encode (cells : List ServerCell) (r : List Nat)
    (h : ∀ cell ∈ cells, WfCell cell) :
    dec_list dec_cell cells.length ((cells.map encode_cell_bin).flatten ++ r) =
      some (cells, r) := by
  induction cells with
  | nil => simp [dec_list]
  | cons c rest ih =>
    simp only [List.map_cons, List.flatten_cons, List.length_cons,
      List.append_assoc, dec_list]
    rw [dec_cell_encode c _ (h c (List.mem_cons_self _ _))]
    simp only [Option.bind_eq_bind, Option.some_bind]
    rw [ih fun x hx => h x (List.mem_cons_of_mem _ hx)]
    rfl

theorem decode_bin_roundtrip (f : ServerFrame) (r : List Nat) (h : WfFrame f) :
    decode_server_message_bin (encode_server_message_bin (.frame f) ++ r) =
      some (.frame f, r) := by
  obtain ⟨hcols, hrows, hcc, hcr, hlen, hcells⟩ := h
  simp only [encode_server_message_bin, List.append_assoc]
  simp [decode_server_message_bin,
    dec_u32_encode 0 _ (by omega),
    dec_u16_encode _ _ hcols, dec_u16_encode _ _ hrows,
    dec_u16_encode _ _ hcc, dec_u16_encode _ _ hcr,
    dec_bool_encode,
    dec_u64_encode _ _ hlen,
    dec_list_encode f.cells r hcells]

/-- C5: both wire encodings of a Frame round-trip: decoding the serde_json
encoding of ServerMessage::Frame yields the same frame, and decoding its
bincode byte sequence yields the same frame with no bytes left over. -/
theorem frame_encodings_roundtrip (f : ServerFrame) (h : WfFrame f) :
    decode_server_message_json (encode_server_message_json (.frame f)) =
      some (.frame f) ∧
    decode_server_message_bin (encode_server_message_bin (.frame f)) =
      some (.frame f, []) := by
  refine ⟨decode_json_roundtrip f h, ?_⟩
  have := decode_bin_roundtrip f [] h
  simpa using this

/-- C5 witness: both round-trips evaluated at a concrete frame. -/
theorem frame_encodings_roundtrip_witness :
    decode_server_message_json (encode_server_message_json (.frame demo_frame)) =
      some (.frame demo_frame) ∧
    decode_server_message_bin (encode_server_message_bin (.frame demo_frame)) =
      some (.frame demo_frame, []) :=
  frame_encodings_roundtrip demo_frame
    (by unfold WfFrame WfCell; refine ⟨by decide, by decide, by decide, by decide, by decide, ?_⟩; decide)

end NoirTTY
